import Mathlib

/-!
# Search controller (`assets/js/script.js`): embedding and verification

The page script registers one `submit` handler on the search form.  The handler
is an `async` function with two suspension points (`await fetch(...)` and
`await response.json()`).  It is embedded here as three synchronous segments
over an explicit page state (`World`), one per stretch of code that runs
without yielding, together with an event loop (`step`, `run`) that delivers
form submissions, settled promises and elapsed time.

JavaScript strings are sequences of UTF-16 code units; they are embedded as
lists of natural numbers (each code unit is a number below `65536`).
-/

namespace SearchPage

/-! ## Strings -/

/-- A JavaScript string: its UTF-16 code units, in order. -/
abbrev JSString := List Nat

/-- UTF-16 code units of one Unicode scalar value. -/
def utf16Char (c : Char) : JSString :=
  if c.toNat < 65536 then [c.toNat]
  else [55296 + (c.toNat - 65536) / 1024, 56320 + (c.toNat - 65536) % 1024]

/-- The JavaScript string denoted by a source literal. -/
def utf16 (s : String) : JSString :=
  s.toList.flatMap utf16Char

/-- Code points removed by `String.prototype.trim`: ECMAScript `WhiteSpace`
and `LineTerminator`. -/
def isWhiteSpace (c : Nat) : Bool :=
  c == 9 || c == 10 || c == 11 || c == 12 || c == 13 || c == 32 || c == 160 ||
  c == 5760 || (8192 ≤ c && c ≤ 8202) || c == 8232 || c == 8233 ||
  c == 8239 || c == 8287 || c == 12288 || c == 65279

/-- `String.prototype.trimStart`. -/
def trimStart (s : JSString) : JSString :=
  s.dropWhile isWhiteSpace

/-- `String.prototype.trimEnd`. -/
def trimEnd (s : JSString) : JSString :=
  (s.reverse.dropWhile isWhiteSpace).reverse

/-- `String.prototype.trim`. -/
def trim (s : JSString) : JSString :=
  trimEnd (trimStart s)

/-- Errors that can be thrown, or be the reason of a rejected promise, while
the handler runs. -/
inductive JSError where
  /-- `URIError` of `encodeURIComponent` on an unpaired surrogate. -/
  | uriError
  /-- `new Error("HTTP error! status: " + status)` thrown by the handler. -/
  | httpError (status : Nat)
  /-- `TypeError` raised by the language (property read on `null`, call of a
  value that is not a function, object without primitive value). -/
  | typeError
  /-- Rejection reason of `fetch` (network failure). -/
  | fetchRejected
  /-- Rejection reason of `response.json()` (body is not JSON, body unreadable). -/
  | jsonRejected
  deriving DecidableEq, Repr

/-- Code units `encodeURIComponent` copies unchanged: ASCII letters, digits
and `- _ . ! ~ * ' ( )`. -/
def isUnreserved (c : Nat) : Bool :=
  (65 ≤ c && c ≤ 90) || (97 ≤ c && c ≤ 122) || (48 ≤ c && c ≤ 57) ||
  c == 45 || c == 95 || c == 46 || c == 33 || c == 126 || c == 42 ||
  c == 39 || c == 40 || c == 41

/-- Leading (high) surrogate code unit. -/
def isLeadSurrogate (c : Nat) : Bool := 55296 ≤ c && c ≤ 56319

/-- Trailing (low) surrogate code unit. -/
def isTrailSurrogate (c : Nat) : Bool := 56320 ≤ c && c ≤ 57343

/-- Upper-case hexadecimal digit, as a code unit. -/
def hexDigit (n : Nat) : Nat :=
  if n < 10 then 48 + n else 55 + n

/-- One octet written as `%XX`. -/
def percentOctet (b : Nat) : JSString :=
  [37, hexDigit (b / 16), hexDigit (b % 16)]

/-- UTF-8 octets of a code point. -/
def utf8Octets (cp : Nat) : List Nat :=
  if cp < 128 then [cp]
  else if cp < 2048 then [192 + cp / 64, 128 + cp % 64]
  else if cp < 65536 then [224 + cp / 4096, 128 + cp / 64 % 64, 128 + cp % 64]
  else [240 + cp / 262144, 128 + cp / 4096 % 64, 128 + cp / 64 % 64, 128 + cp % 64]

/-- Percent-encoding of a code point. -/
def percentEncode (cp : Nat) : JSString :=
  (utf8Octets cp).flatMap percentOctet

/-- Code point of a surrogate pair. -/
def surrogatePair (lead trail : Nat) : Nat :=
  (lead - 55296) * 1024 + (trail - 56320) + 65536

/-- The global `encodeURIComponent`: unreserved code units are copied, every
other code point is written as the percent-encoded octets of its UTF-8 form,
and an unpaired surrogate throws `URIError`. -/
def encodeURIComponent : JSString → Except JSError JSString
  | [] => .ok []
  | [c] =>
    if isUnreserved c then .ok [c]
    else if isLeadSurrogate c || isTrailSurrogate c then .error .uriError
    else .ok (percentEncode c)
  | c :: d :: rest =>
    if isUnreserved c then
      (encodeURIComponent (d :: rest)).map (c :: ·)
    else if isLeadSurrogate c then
      if isTrailSurrogate d then
        (encodeURIComponent rest).map (percentEncode (surrogatePair c d) ++ ·)
      else .error .uriError
    else if isTrailSurrogate c then .error .uriError
    else (encodeURIComponent (d :: rest)).map (percentEncode c ++ ·)

/-! ## Values of a parsed response body -/

/-- A Number, given by its decimal text: the string `Number::toString` yields
for it, such as `7`, `-20`, `0.5`, `1e+21`, `5e-324` or `Infinity`.  The text
determines the Number, since `ToNumber` of the text gives the Number back; the
handler observes a Number only through this text and through comparison with
zero. -/
structure JSNumber where
  text : JSString
  deriving DecidableEq, Repr

/-- A value produced by `response.json()`.  An object is given by its own
properties, keys distinct. -/
inductive Json where
  | null
  | bool (b : Bool)
  | number (n : JSNumber)
  | string (s : JSString)
  | array (items : List Json)
  | object (members : List (JSString × Json))

/-- Own property of an object, by key. -/
def lookupMember (key : JSString) : List (JSString × Json) → Option Json
  | [] => none
  | (k, v) :: rest => if k = key then some v else lookupMember key rest

mutual
/-- `ToString` on a parsed value.  An array goes through
`Array.prototype.join`; an object goes through `OrdinaryToPrimitive`, which
finds `Object.prototype.toString` unless an own property named `toString`
(never callable in a parsed value) shadows it, in which case no primitive
value is found and a `TypeError` is thrown. -/
def Json.toJSString : Json → Except JSError JSString
  | .null => .ok (utf16 "null")
  | .bool b => .ok (if b then utf16 "true" else utf16 "false")
  | .number n => .ok n.text
  | .string s => .ok s
  | .array items => (Json.itemStrings items).map (List.intercalate [44])
  | .object members =>
    match lookupMember (utf16 "toString") members with
    | some _ => .error .typeError
    | none => .ok (utf16 "[object Object]")
/-- The strings `Array.prototype.join` puts between the separators: the empty
string for a `null` element, `ToString` of the element otherwise. -/
def Json.itemStrings : List Json → Except JSError (List JSString)
  | [] => .ok []
  | .null :: rest => (Json.itemStrings rest).map ([] :: ·)
  | x :: rest =>
    match Json.toJSString x, Json.itemStrings rest with
    | .ok a, .ok parts => .ok (a :: parts)
    | .error e, _ => .error e
    | .ok _, .error e => .error e
end

/-! ### The comparison `results.length > 0` -/

/-- Decimal digit, as a code unit. -/
def isDecimalDigit (c : Nat) : Bool := 48 ≤ c && c ≤ 57

/-- Digit of a hexadecimal integer literal. -/
def isHexDigit (c : Nat) : Bool :=
  isDecimalDigit c || (65 ≤ c && c ≤ 70) || (97 ≤ c && c ≤ 102)

/-- Value of a run of decimal digits. -/
def digitsValue (ds : JSString) : Nat :=
  ds.foldl (fun acc d => acc * 10 + (d - 48)) 0

/-- Whether the mathematical value `m * 10 ^ e` rounds to a Number above zero:
it does unless it is at most `2 ^ (-1075)`, half of the least positive Number. -/
def roundsAboveZero (m : Nat) (e : Int) : Bool :=
  if 0 ≤ e then decide (0 < m) else decide (10 ^ (-e).toNat < m * 2 ^ 1075)

/-- Exponent part of a decimal literal (`e` or `E`, optional sign, digits);
`none` when the text is not an exponent part. -/
def exponentPart (s : JSString) : Option Int :=
  match s with
  | [] => some 0
  | c :: t =>
    if c == 101 || c == 69 then
      match t with
      | [] => none
      | 43 :: ds =>
        if ds ≠ [] ∧ ds.all isDecimalDigit then some (digitsValue ds) else none
      | 45 :: ds =>
        if ds ≠ [] ∧ ds.all isDecimalDigit then some (-(digitsValue ds : Int)) else none
      | d :: ds =>
        if (d :: ds).all isDecimalDigit then some (digitsValue (d :: ds)) else none
    else none

/-- `StrUnsignedDecimalLiteral`: whether the literal denotes a Number above
zero; `none` when the text is no such literal. -/
def unsignedDecimalPositive (s : JSString) : Option Bool :=
  if s = utf16 "Infinity" then some true
  else
    let intPart := s.takeWhile isDecimalDigit
    let afterInt := s.dropWhile isDecimalDigit
    let fracPart :=
      match afterInt with
      | 46 :: t => t.takeWhile isDecimalDigit
      | _ => []
    let afterFrac :=
      match afterInt with
      | 46 :: t => t.dropWhile isDecimalDigit
      | _ => afterInt
    if intPart = [] ∧ fracPart = [] then none
    else
      (exponentPart afterFrac).map fun e =>
        roundsAboveZero (digitsValue (intPart ++ fracPart)) (e - fracPart.length)

/-- `NonDecimalIntegerLiteral` (`0x`, `0o`, `0b` forms): whether it is above
zero; `none` when the text is no such literal. -/
def nonDecimalPositive (s : JSString) : Option Bool :=
  match s with
  | 48 :: p :: ds =>
    let digitOk : Nat → Bool :=
      if p == 120 || p == 88 then isHexDigit
      else if p == 111 || p == 79 then fun c => 48 ≤ c && c ≤ 55
      else if p == 98 || p == 66 then fun c => c == 48 || c == 49
      else fun _ => false
    if ds ≠ [] ∧ ds.all digitOk then some (ds.any (· != 48)) else none
  | _ => none

/-- Whether `ToNumber` of a string is above zero (`StringToNumber`: blank
text is `0`, text that is no numeric literal is `NaN`). -/
def stringToNumberPositive (s : JSString) : Bool :=
  match nonDecimalPositive (trim s) with
  | some b => b
  | none =>
    match trim s with
    | [] => false
    | 45 :: _ => false
    | 43 :: u => (unsignedDecimalPositive u).getD false
    | u => (unsignedDecimalPositive u).getD false

/-- The comparison `v > 0` on a parsed value: `ToPrimitive`, then `ToNumber`.
A Number is compared through its decimal text, which denotes it. -/
def Json.greaterThanZero : Json → Except JSError Bool
  | .null => .ok false
  | .bool b => .ok b
  | .number n => .ok (stringToNumberPositive n.text)
  | .string s => .ok (stringToNumberPositive s)
  | .array items => (Json.toJSString (.array items)).map stringToNumberPositive
  | .object members => (Json.toJSString (.object members)).map stringToNumberPositive

/-- The condition `results.length > 0`.  Reading `length` of `null` throws;
booleans, numbers and objects without an own `length` give `undefined`, which
is not above zero. -/
def lengthPositive : Json → Except JSError Bool
  | .null => .error .typeError
  | .bool _ => .ok false
  | .number _ => .ok false
  | .string s => .ok (decide (0 < s.length))
  | .array items => .ok (decide (0 < items.length))
  | .object members =>
    match lookupMember (utf16 "length") members with
    | none => .ok false
    | some v => v.greaterThanZero

/-! ### Reading a result's fields -/

/-- The three properties the handler reads from each result. -/
inductive Field where
  | link
  | title
  | summary
  deriving DecidableEq, Repr

/-- Property name of a field. -/
def Field.key : Field → JSString
  | .link => utf16 "link"
  | .title => utf16 "title"
  | .summary => utf16 "summary"

/-- What a property read can produce. -/
inductive Value where
  | undefined
  | json (v : Json)
  /-- The function `String.prototype.link`, found when `.link` is read from a
  string. -/
  | stringLinkMethod

/-- The reads `result.link`, `result.title`, `result.summary`.  Reading from
`null` throws; an object gives its own property or `undefined`; a string
inherits `link` from `String.prototype`; nothing else has these properties. -/
def readField (result : Json) (f : Field) : Except JSError Value :=
  match result with
  | .null => .error .typeError
  | .object members =>
    match lookupMember f.key members with
    | some v => .ok (.json v)
    | none => .ok .undefined
  | .string _ =>
    match f with
    | .link => .ok .stringLinkMethod
    | _ => .ok .undefined
  | _ => .ok .undefined

/-- Source text of a built-in function as `Function.prototype.toString` gives
it (implementation-defined; this is the common form). -/
def nativeLinkSource : JSString :=
  utf16 "function link() \x7b [native code] \x7d"

/-- `ToString` on the result of a property read. -/
def Value.toJSString : Value → Except JSError JSString
  | .undefined => .ok (utf16 "undefined")
  | .json v => v.toJSString
  | .stringLinkMethod => .ok nativeLinkSource

/-- Conversion of the value assigned to `textContent` (a nullable string
attribute): `undefined` and `null` become the empty string. -/
def Value.toTextContent : Value → Except JSError JSString
  | .undefined => .ok []
  | .json .null => .ok []
  | v => v.toJSString

/-- Replacement of unpaired surrogates by U+FFFD. -/
def toScalarValues : JSString → JSString
  | [] => []
  | [c] => if isLeadSurrogate c || isTrailSurrogate c then [65533] else [c]
  | c :: d :: rest =>
    if isLeadSurrogate c then
      if isTrailSurrogate d then c :: d :: toScalarValues rest
      else 65533 :: toScalarValues (d :: rest)
    else if isTrailSurrogate c then 65533 :: toScalarValues (d :: rest)
    else c :: toScalarValues (d :: rest)

/-- Conversion of the value assigned to `href` (a scalar-value string
attribute): `ToString`, then unpaired surrogates are replaced. -/
def Value.toHref (v : Value) : Except JSError JSString :=
  v.toJSString.map toScalarValues

/-! ## Document -/

/-- A DOM node: a text node, or an element with its tag, its content
attributes in the order they were set, and its children. -/
inductive Node where
  | text (data : JSString)
  | element (tag : JSString) (attributes : List (JSString × JSString))
      (children : List Node)

/-- Children of an element after `textContent = s`: one text node, none when
`s` is empty. -/
def textChildren (s : JSString) : List Node :=
  match s with
  | [] => []
  | _ => [.text s]

/-- Body of the `results.forEach` callback (script.js lines 28-50): the `li`
built for one result. -/
def buildListItem (result : Json) : Except JSError Node := do
  let href ← (← readField result .link).toHref
  let title ← (← readField result .title).toTextContent
  let summary ← (← readField result .summary).toTextContent
  pure (.element (utf16 "li") []
    [.element (utf16 "div") [(utf16 "class", utf16 "text-content")]
      [.element (utf16 "a") [(utf16 "href", href), (utf16 "target", utf16 "_blank")]
        (textChildren title),
       .element (utf16 "p") [] (textChildren summary)],
     .element (utf16 "img")
      [(utf16 "src", utf16 "assets/images/exam2.png"), (utf16 "class", utf16 "result-image")]
      []])

/-- The loop `results.forEach(...)` over an array: items in array order; the
first exception ends the loop. -/
def buildItems : List Json → Except JSError (List Node)
  | [] => .ok []
  | r :: rest =>
    match buildListItem r with
    | .error e => .error e
    | .ok item => (buildItems rest).map (item :: ·)

/-- Text shown when the response has no results. -/
def noResultsText : JSString := utf16 "No se encontraron resultados."

/-- The list built by script.js lines 26-51 when `results.length > 0` holds,
`none` when it does not hold.  Only an array has `forEach`; calling it on
anything else throws.  An exception leaves the list unattached. -/
def buildList (results : Json) : Except JSError (Option Node) :=
  match lengthPositive results with
  | .error e => .error e
  | .ok false => .ok none
  | .ok true =>
    match results with
    | .array items => (buildItems items).map (fun listItems =>
        some (.element (utf16 "ul") [] listItems))
    | _ => .error .typeError

/-- The `if (results.length > 0) ... else ...` statement (script.js lines
25-55): the children of the results container afterwards, given its children
before.  The list is appended (`appendChild`); the text replaces all children
(`textContent = ...`). -/
def renderResults (results : Json) (container : List Node) : Except JSError (List Node) :=
  (buildList results).map fun
    | some list => container ++ [list]
    | none => [.text noResultsText]

/-! ## Page state and the handler -/

/-- Callback given to `setTimeout`; both calls pass
`() => { searchStatus.textContent = ''; }`. -/
inductive TimerCallback where
  | clearStatus
  deriving DecidableEq, Repr

/-- A pending timer: the time it becomes due, and its callback. -/
structure Timer where
  due : Nat
  callback : TimerCallback
  deriving DecidableEq, Repr

/-- The two suspension points of the handler. -/
inductive Stage where
  | awaitingFetch
  | awaitingJson
  deriving DecidableEq, Repr

/-- A suspended run of the handler: the index of its `fetch` call in
`World.requests`, its local `query`, and where it waits. -/
structure Suspended where
  request : Nat
  query : JSString
  stage : Stage
  deriving DecidableEq, Repr

/-- Everything the handler reads or writes.  Times are in milliseconds. -/
structure World where
  /-- Current time. -/
  now : Nat
  /-- `searchStatus.textContent`. -/
  searchStatus : JSString
  /-- Children of `resultsContainer`. -/
  resultsContainer : List Node
  /-- URLs passed to `fetch`, in call order. -/
  requests : List JSString
  /-- Number of calls of `response.json()`. -/
  bodyReads : Nat
  /-- Timers set and not yet fired, in the order they were set. -/
  timers : List Timer
  /-- Errors passed to `console.error`. -/
  console : List JSError
  /-- Runs of the handler waiting at an `await`. -/
  suspended : List Suspended

/-- How a synchronous stretch of the handler ends. -/
inductive Progress where
  /-- Suspended at `await fetch(...)`. -/
  | awaitFetch (query : JSString)
  /-- Suspended at `await response.json()`. -/
  | awaitJson (query : JSString)
  /-- The handler returned. -/
  | returned
  /-- An exception left the handler. -/
  | threw (e : JSError)
  deriving DecidableEq

/-- Settlement of the promise returned by `fetch`. -/
inductive FetchOutcome where
  | rejected
  /-- A response with this HTTP status. -/
  | response (status : Nat)
  deriving DecidableEq, Repr

/-- `response.ok`: the status is in the range 200-299. -/
def responseOk (status : Nat) : Bool := 200 ≤ status && status ≤ 299

/-- Settlement of the promise returned by `response.json()`. -/
inductive JsonOutcome where
  | rejected
  | value (results : Json)

/-- Address of the search endpoint, up to the query parameter. -/
def searchUrl : JSString := utf16 "http://localhost:5000/search?query="

def searchingText : JSString := utf16 "Buscando resultados..."

def promptText : JSString := utf16 "Por favor, ingrese una consulta."

def errorStatusText : JSString := utf16 "Error al realizar la búsqueda."

def retryText : JSString :=
  utf16 "Ocurrió un error al obtener los resultados. Por favor, intente de nuevo más tarde."

/-- The template literal of script.js line 23. -/
def showingText (query : JSString) : JSString :=
  utf16 "Mostrando resultados para: \"" ++ query ++ utf16 "\""

/-- `setTimeout(callback, delay)`. -/
def setTimeout (w : World) (callback : TimerCallback) (delay : Nat) : World :=
  { w with timers := w.timers ++ [{ due := w.now + delay, callback := callback }] }

/-- The `catch (error)` block (script.js lines 57-60). -/
def catchBlock (w : World) (error : JSError) : World :=
  { w with
    console := w.console ++ [error]
    searchStatus := errorStatusText
    resultsContainer := [.text retryText] }

/-- The `finally` block (script.js lines 61-65). -/
def finallyBlock (w : World) : World :=
  setTimeout w .clearStatus 3000

/-- The handler from its start to the first `await` (script.js lines 7-17,
and lines 67-71 for an empty query).  `value` is `searchInput.value`.
`event.preventDefault()` touches only the event and is not recorded. -/
def handleSubmit (w : World) (value : JSString) : World × Progress :=
  let query := trim value
  if query ≠ [] then
    let w1 := { w with searchStatus := searchingText, resultsContainer := [] }
    match encodeURIComponent query with
    | .error e => (finallyBlock (catchBlock w1 e), .returned)
    | .ok encoded =>
      ({ w1 with requests := w1.requests ++ [searchUrl ++ encoded] }, .awaitFetch query)
  else
    (setTimeout { w with searchStatus := promptText } .clearStatus 2000, .returned)

/-- The handler from the settlement of `fetch` to the second `await`
(script.js lines 17-21). -/
def resumeAfterFetch (w : World) (query : JSString) (o : FetchOutcome) : World × Progress :=
  match o with
  | .rejected => (finallyBlock (catchBlock w .fetchRejected), .returned)
  | .response status =>
    if !responseOk status then
      (finallyBlock (catchBlock w (.httpError status)), .returned)
    else
      ({ w with bodyReads := w.bodyReads + 1 }, .awaitJson query)

/-- The handler from the settlement of `response.json()` to its end
(script.js lines 21-65). -/
def resumeAfterJson (w : World) (query : JSString) (o : JsonOutcome) : World × Progress :=
  match o with
  | .rejected => (finallyBlock (catchBlock w .jsonRejected), .returned)
  | .value results =>
    let w1 := { w with searchStatus := showingText query }
    match renderResults results w1.resultsContainer with
    | .error e => (finallyBlock (catchBlock w1 e), .returned)
    | .ok children => (finallyBlock { w1 with resultsContainer := children }, .returned)

/-! ## Event loop -/

/-- What can happen on the page: the form is submitted while the input holds
`value`; the `fetch` of a suspended run settles; its `response.json()`
settles; time passes. -/
inductive Event where
  | submit (value : JSString)
  | fetchSettled (request : Nat) (o : FetchOutcome)
  | jsonSettled (request : Nat) (o : JsonOutcome)
  | elapse (ms : Nat)

/-- Running a timer callback. -/
def runCallback (w : World) : TimerCallback → World
  | .clearStatus => { w with searchStatus := [] }

/-- Insertion of a timer after all timers that are due no later. -/
def insertByDue (t : Timer) : List Timer → List Timer
  | [] => [t]
  | u :: rest => if t.due < u.due then t :: u :: rest else u :: insertByDue t rest

/-- Timers in firing order: by due time, and among equal due times in the
order they were set. -/
def firingOrder (ts : List Timer) : List Timer :=
  ts.foldl (fun acc t => insertByDue t acc) []

/-- Time advances by `ms`; the timers that have become due fire, in order,
and are removed. -/
def elapse (w : World) (ms : Nat) : World :=
  let due := firingOrder (w.timers.filter (fun t => t.due ≤ w.now + ms))
  due.foldl (fun v t => runCallback v t.callback)
    { w with now := w.now + ms, timers := w.timers.filter (fun t => w.now + ms < t.due) }

/-- Registration of a run that suspended; a run that ended leaves nothing. -/
def park (request : Nat) (r : World × Progress) : World :=
  match r.2 with
  | .awaitFetch query =>
    { r.1 with suspended := r.1.suspended ++
        [{ request := request, query := query, stage := .awaitingFetch }] }
  | .awaitJson query =>
    { r.1 with suspended := r.1.suspended ++
        [{ request := request, query := query, stage := .awaitingJson }] }
  | _ => r.1

/-- The suspended run with this request and stage, if any. -/
def findSuspended (w : World) (request : Nat) (stage : Stage) : Option Suspended :=
  w.suspended.find? (fun k => k.request == request && k.stage == stage)

/-- Removal of a run from the suspended ones. -/
def unpark (w : World) (request : Nat) : World :=
  { w with suspended := w.suspended.filter (fun k => k.request != request) }

/-- One turn of the event loop.  A settlement for a run that is not waiting
for it changes nothing. -/
def step (w : World) : Event → World
  | .submit value => park w.requests.length (handleSubmit w value)
  | .fetchSettled request o =>
    match findSuspended w request .awaitingFetch with
    | none => w
    | some k => park request (resumeAfterFetch (unpark w request) k.query o)
  | .jsonSettled request o =>
    match findSuspended w request .awaitingJson with
    | none => w
    | some k => park request (resumeAfterJson (unpark w request) k.query o)
  | .elapse ms => elapse w ms

/-- A sequence of turns. -/
def run (w : World) (events : List Event) : World :=
  events.foldl step w

/-- The page right after loading: nothing shown, nothing pending. -/
def initialWorld : World :=
  { now := 0, searchStatus := [], resultsContainer := [], requests := [], bodyReads := 0,
    timers := [], console := [], suspended := [] }

/-- One run of the handler from submission to its end, when both promises
settle: `during₁` and `during₂` are whatever else happens on the page while
the run is suspended at its first and second `await`. -/
def runHandler (w : World) (value : JSString) (during₁ : World → World) (fetched : FetchOutcome)
    (during₂ : World → World) (parsed : JsonOutcome) : World × Progress :=
  match handleSubmit w value with
  | (w1, .awaitFetch query) =>
    match resumeAfterFetch (during₁ w1) query fetched with
    | (w2, .awaitJson query2) => resumeAfterJson (during₂ w2) query2 parsed
    | r => r
  | r => r

/-! ## Vocabulary of the specification -/

/-- An element with the given tag. -/
def Node.hasTag (tag : JSString) : Node → Bool
  | .text _ => false
  | .element t _ _ => t == tag

/-- Value of a content attribute of a node. -/
def Node.attribute (name : JSString) : Node → Option JSString
  | .text _ => none
  | .element _ attrs _ => (attrs.find? (fun a => a.1 == name)).map (·.2)

/-- Children of a node. -/
def Node.children : Node → List Node
  | .text _ => []
  | .element _ _ cs => cs

mutual
/-- The `textContent` of a node: the text of its descendants, in order. -/
def Node.textContent : Node → JSString
  | .text s => s
  | .element _ _ cs => Node.textContentList cs
/-- Concatenated `textContent` of a list of nodes. -/
def Node.textContentList : List Node → JSString
  | [] => []
  | n :: rest => Node.textContent n ++ Node.textContentList rest
end

mutual
/-- Number of `ul` elements in a subtree. -/
def Node.countLists : Node → Nat
  | .text _ => 0
  | .element t _ cs => (if t = utf16 "ul" then 1 else 0) + Node.countListsIn cs
/-- Number of `ul` elements in a forest. -/
def Node.countListsIn : List Node → Nat
  | [] => 0
  | n :: rest => Node.countLists n + Node.countListsIn rest
end

/-- A value is an empty string or consists of white space only. -/
def isBlank (value : JSString) : Bool :=
  value.all isWhiteSpace

/-- A result object as the specification describes it: an object whose
`title`, `link` and `summary` are strings. -/
structure SearchResult where
  title : JSString
  link : JSString
  summary : JSString

/-- The parsed object of a search result. -/
def SearchResult.toJson (r : SearchResult) : Json :=
  .object [(utf16 "title", .string r.title), (utf16 "link", .string r.link),
    (utf16 "summary", .string r.summary)]

/-- A parsed object that carries a search result: an object whose own
properties `title`, `link` and `summary`, in whatever order they come and
whatever other properties stand beside them, are these strings. -/
def IsResultObject (j : Json) (r : SearchResult) : Prop :=
  ∃ members, j = .object members ∧
    lookupMember (utf16 "title") members = some (.string r.title) ∧
    lookupMember (utf16 "link") members = some (.string r.link) ∧
    lookupMember (utf16 "summary") members = some (.string r.summary)

/-- The rendering of a search result as the specification describes it: a list
item holding a text block, made of a hyperlink to `link` with text `title`
opening in a new browsing context and a paragraph with text `summary`, and
then the placeholder image. -/
def IsRenderingOf (item : Node) (r : SearchResult) : Prop :=
  item.hasTag (utf16 "li") = true ∧
  ∃ block image, item.children = [block, image] ∧
    block.hasTag (utf16 "div") = true ∧
    (∃ anchor paragraph, block.children = [anchor, paragraph] ∧
      anchor.hasTag (utf16 "a") = true ∧
      anchor.attribute (utf16 "href") = some r.link ∧
      anchor.textContent = r.title ∧
      anchor.attribute (utf16 "target") = some (utf16 "_blank") ∧
      paragraph.hasTag (utf16 "p") = true ∧
      paragraph.textContent = r.summary) ∧
    image.hasTag (utf16 "img") = true ∧
    image.attribute (utf16 "class") = some (utf16 "result-image") ∧
    image.attribute (utf16 "src") = some (utf16 "assets/images/exam2.png")

/-- `String.prototype.isWellFormed`: the string has no unpaired surrogate. -/
def isWellFormed : JSString → Bool
  | [] => true
  | [c] => !(isLeadSurrogate c || isTrailSurrogate c)
  | c :: d :: rest =>
    if isLeadSurrogate c then isTrailSurrogate d && isWellFormed rest
    else !isTrailSurrogate c && isWellFormed (d :: rest)

/-- The world in which the handler waits for `fetch`. -/
def requested (w : World) (encoded : JSString) : World :=
  { w with searchStatus := searchingText, resultsContainer := [],
           requests := w.requests ++ [searchUrl ++ encoded] }

/-- The response body renders without an exception. -/
def RendersWithoutError (body : Json) : Prop :=
  ∃ list, buildList body = .ok list

/-- An exception is thrown while the response body is rendered. -/
def ThrowsWhileRendering (body : Json) : Prop :=
  ∃ e, buildList body = .error e

/-- A failure of the request lifecycle: `fetch` rejects, or the response is
not OK, or the response is OK and `response.json()` rejects or rendering its
value throws. -/
def LifecycleFails (fetched : FetchOutcome) (parsed : JsonOutcome) : Prop :=
  fetched = .rejected ∨
  (∃ status, fetched = .response status ∧ responseOk status = false) ∨
  (∃ status, fetched = .response status ∧ responseOk status = true ∧
    (parsed = .rejected ∨ ∃ body, parsed = .value body ∧ ThrowsWhileRendering body))

/-- A stretch of the handler either ends the handler, having set exactly one
timer with the given delay and the status-clearing callback, or suspends,
having set none. -/
def SetsOneTimerOrSuspends (v : World) (r : World × Progress) (delay : Nat) : Prop :=
  (r.2 = .returned ∧
    r.1.timers = v.timers ++ [{ due := v.now + delay, callback := .clearStatus }]) ∨
  ((∃ query, r.2 = .awaitFetch query ∨ r.2 = .awaitJson query) ∧ r.1.timers = v.timers)

/-! ## Scenarios -/

/-- Two results as a server may return them. -/
def sampleResults : List SearchResult :=
  [{ title := utf16 "Luna", link := utf16 "https://a.example/luna", summary := utf16 "Satélite" },
   { title := utf16 "Marte", link := utf16 "/marte", summary := [] }]

/-- The sample results as a server may serialise them: the first with its
keys in another order and a further property, the second in the usual order. -/
def sampleBody : List Json :=
  [.object [(utf16 "summary", .string (utf16 "Satélite")), (utf16 "id", .number ⟨utf16 "0.5"⟩),
     (utf16 "link", .string (utf16 "https://a.example/luna")),
     (utf16 "title", .string (utf16 "Luna"))],
   .object [(utf16 "title", .string (utf16 "Marte")), (utf16 "link", .string (utf16 "/marte")),
     (utf16 "summary", .string [])]]

/-- A result whose link is the unpaired surrogate U+D800. -/
def brokenLinkResult : SearchResult :=
  { title := utf16 "Luna", link := [55296], summary := utf16 "Satélite" }

/-- A result object without `title`. -/
def untitledResult : Json :=
  .object [(utf16 "link", .string (utf16 "/marte")), (utf16 "summary", .string (utf16 "Planeta"))]

/-- A second submission made while the first is waiting for its response,
both answered with the sample results. -/
def overlappingSearches : List Event :=
  [.submit (utf16 "luna"), .submit (utf16 "marte"),
   .fetchSettled 0 (.response 200),
   .jsonSettled 0 (.value (.array (sampleResults.map SearchResult.toJson))),
   .fetchSettled 1 (.response 200),
   .jsonSettled 1 (.value (.array (sampleResults.map SearchResult.toJson)))]

/-- A completed search with results, followed by a submission of a
white-space-only input. -/
def blankAfterSearch : List Event :=
  [.submit (utf16 "luna"), .fetchSettled 0 (.response 200),
   .jsonSettled 0 (.value (.array (sampleResults.map SearchResult.toJson))),
   .submit (utf16 "   ")]

/-- An empty submission at time 0, then at time 1000 a submission of `luna`
whose request is still pending at time 2000. -/
def staleTimerScenario : List Event :=
  [.submit [], .elapse 1000, .submit (utf16 "luna"), .elapse 1000]

/-! ## Lemmas on strings -/

theorem trimStart_eq_nil_iff (s : JSString) : trimStart s = [] ↔ isBlank s = true := by
  simp [trimStart, isBlank, List.dropWhile_eq_nil_iff]

theorem trim_eq_nil_of_isBlank (s : JSString) (h : isBlank s = true) : trim s = [] := by
  have : trimStart s = [] := (trimStart_eq_nil_iff s).2 h
  simp [trim, this, trimEnd]

theorem trim_eq_nil_iff (s : JSString) : trim s = [] ↔ isBlank s = true := by
  constructor
  · intro h
    rw [← trimStart_eq_nil_iff]
    simp only [trim, trimEnd, List.reverse_eq_nil_iff, List.dropWhile_eq_nil_iff,
      List.mem_reverse] at h
    by_contra hne
    have h1 := List.head_dropWhile_not isWhiteSpace s hne
    have h2 := h _ (List.head_mem hne)
    simp only [trimStart] at h2
    rw [h2] at h1
    cases h1
  · exact trim_eq_nil_of_isBlank s

theorem unreserved_not_surrogate (c : Nat) (h : isUnreserved c = true) :
    isLeadSurrogate c = false ∧ isTrailSurrogate c = false := by
  simp only [isUnreserved, isLeadSurrogate, isTrailSurrogate, Bool.or_eq_true, Bool.and_eq_true,
    decide_eq_true_eq, beq_iff_eq] at h
  constructor <;> simp only [isLeadSurrogate, isTrailSurrogate, Bool.and_eq_false_iff,
    decide_eq_false_iff_not] <;> omega

theorem encodeURIComponent_isOk (s : JSString) (h : isWellFormed s = true) :
    ∃ encoded, encodeURIComponent s = .ok encoded := by
  induction s using encodeURIComponent.induct with
  | case1 => exact ⟨[], rfl⟩
  | case2 c hc => exact ⟨[c], by simp [encodeURIComponent, hc]⟩
  | case3 c hc hs => simp_all [isWellFormed]
  | case4 c hc hs => exact ⟨percentEncode c, by simp [encodeURIComponent, hc, hs]⟩
  | case5 c d rest hc ih =>
    obtain ⟨hl, ht⟩ := unreserved_not_surrogate c hc
    simp [isWellFormed, hl, ht] at h
    obtain ⟨e, he⟩ := ih h
    exact ⟨c :: e, by simp [encodeURIComponent, hc, he, Except.map]⟩
  | case6 c d rest hc hl ht ih =>
    simp [isWellFormed, hl, ht] at h
    obtain ⟨e, he⟩ := ih h
    exact ⟨percentEncode (surrogatePair c d) ++ e, by
      simp [encodeURIComponent, hc, hl, ht, he, Except.map]⟩
  | case7 c d rest hc hl ht => simp [isWellFormed, hl, ht] at h
  | case8 c d rest hc hl ht => simp [isWellFormed, hl, ht] at h
  | case9 c d rest hc hl ht ih =>
    simp [isWellFormed, hl, ht] at h
    obtain ⟨e, he⟩ := ih h
    exact ⟨percentEncode c ++ e, by simp [encodeURIComponent, hc, hl, ht, he, Except.map]⟩

theorem encodeURIComponent_uriError (s : JSString) (h : isWellFormed s = false) :
    encodeURIComponent s = .error .uriError := by
  induction s using encodeURIComponent.induct with
  | case1 => simp [isWellFormed] at h
  | case2 c hc =>
    obtain ⟨hl, ht⟩ := unreserved_not_surrogate c hc
    simp [isWellFormed, hl, ht] at h
  | case3 c hc hs => simp [encodeURIComponent, hc, hs]
  | case4 c hc hs => simp_all [isWellFormed]
  | case5 c d rest hc ih =>
    obtain ⟨hl, ht⟩ := unreserved_not_surrogate c hc
    simp [isWellFormed, hl, ht] at h
    simp [encodeURIComponent, hc, ih h, Except.map]
  | case6 c d rest hc hl ht ih =>
    simp [isWellFormed, hl, ht] at h
    simp [encodeURIComponent, hc, hl, ht, ih h, Except.map]
  | case7 c d rest hc hl ht => simp [encodeURIComponent, hc, hl, ht]
  | case8 c d rest hc hl ht => simp [encodeURIComponent, hc, hl, ht]
  | case9 c d rest hc hl ht ih =>
    simp [isWellFormed, hl, ht] at h
    simp [encodeURIComponent, hc, hl, ht, ih h, Except.map]

theorem toScalarValues_of_isWellFormed (s : JSString) (h : isWellFormed s = true) :
    toScalarValues s = s := by
  induction s using toScalarValues.induct with
  | case1 => rfl
  | case2 c hc => simp_all [isWellFormed]
  | case3 c hc => simp [toScalarValues, hc]
  | case4 c d rest hl ht ih =>
    simp [isWellFormed, hl, ht] at h
    simp [toScalarValues, hl, ht, ih h]
  | case5 c d rest hl ht => simp [isWellFormed, hl, ht] at h
  | case6 c d rest hl ht => simp [isWellFormed, hl, ht] at h
  | case7 c d rest hl ht ih =>
    simp [isWellFormed, hl, ht] at h
    simp [toScalarValues, hl, ht, ih h]

/-! ## Lemmas on the handler's stretches -/

theorem handleSubmit_blank (w : World) (value : JSString) (h : trim value = []) :
    handleSubmit w value =
      (setTimeout { w with searchStatus := promptText } .clearStatus 2000, .returned) := by
  simp [handleSubmit, h]

theorem handleSubmit_encoded (w : World) (value encoded : JSString) (h : trim value ≠ [])
    (he : encodeURIComponent (trim value) = .ok encoded) :
    handleSubmit w value =
      ({ w with searchStatus := searchingText, resultsContainer := [],
                requests := w.requests ++ [searchUrl ++ encoded] },
       .awaitFetch (trim value)) := by
  simp [handleSubmit, h, he]

theorem handleSubmit_uriError (w : World) (value : JSString) (e : JSError) (h : trim value ≠ [])
    (he : encodeURIComponent (trim value) = .error e) :
    handleSubmit w value =
      (finallyBlock (catchBlock { w with searchStatus := searchingText, resultsContainer := [] } e),
       .returned) := by
  simp [handleSubmit, h, he]

theorem resumeAfterFetch_requests (w : World) (query : JSString) (o : FetchOutcome) :
    (resumeAfterFetch w query o).1.requests = w.requests := by
  cases o with
  | rejected => rfl
  | response status =>
    by_cases h : responseOk status <;>
      simp [resumeAfterFetch, h, finallyBlock, setTimeout, catchBlock]

theorem resumeAfterJson_requests (w : World) (query : JSString) (o : JsonOutcome) :
    (resumeAfterJson w query o).1.requests = w.requests := by
  cases o with
  | rejected => rfl
  | value results =>
    simp only [resumeAfterJson]
    split <;> rfl

theorem runHandler_blank (w : World) (value : JSString) (d₁ d₂ : World → World)
    (fetched : FetchOutcome) (parsed : JsonOutcome) (h : trim value = []) :
    runHandler w value d₁ fetched d₂ parsed =
      (setTimeout { w with searchStatus := promptText } .clearStatus 2000, .returned) := by
  simp [runHandler, handleSubmit_blank w value h]

theorem runHandler_uriError (w : World) (value : JSString) (d₁ d₂ : World → World)
    (fetched : FetchOutcome) (parsed : JsonOutcome) (e : JSError) (h : trim value ≠ [])
    (he : encodeURIComponent (trim value) = .error e) :
    runHandler w value d₁ fetched d₂ parsed =
      (finallyBlock (catchBlock { w with searchStatus := searchingText, resultsContainer := [] } e),
       .returned) := by
  simp [runHandler, handleSubmit_uriError w value e h he]

theorem runHandler_rejected (w : World) (value encoded : JSString) (d₁ d₂ : World → World)
    (parsed : JsonOutcome) (h : trim value ≠ [])
    (he : encodeURIComponent (trim value) = .ok encoded) :
    runHandler w value d₁ .rejected d₂ parsed =
      (finallyBlock (catchBlock (d₁ (requested w encoded)) .fetchRejected), .returned) := by
  simp [runHandler, handleSubmit_encoded w value encoded h he, resumeAfterFetch, requested]

theorem runHandler_notOk (w : World) (value encoded : JSString) (d₁ d₂ : World → World)
    (status : Nat) (parsed : JsonOutcome) (h : trim value ≠ [])
    (he : encodeURIComponent (trim value) = .ok encoded) (hs : responseOk status = false) :
    runHandler w value d₁ (.response status) d₂ parsed =
      (finallyBlock (catchBlock (d₁ (requested w encoded)) (.httpError status)), .returned) := by
  simp [runHandler, handleSubmit_encoded w value encoded h he, resumeAfterFetch, requested, hs]

theorem runHandler_ok (w : World) (value encoded : JSString) (d₁ d₂ : World → World)
    (status : Nat) (parsed : JsonOutcome) (h : trim value ≠ [])
    (he : encodeURIComponent (trim value) = .ok encoded) (hs : responseOk status = true) :
    runHandler w value d₁ (.response status) d₂ parsed =
      resumeAfterJson
        (d₂ { d₁ (requested w encoded) with
              bodyReads := (d₁ (requested w encoded)).bodyReads + 1 })
        (trim value) parsed := by
  simp [runHandler, handleSubmit_encoded w value encoded h he, resumeAfterFetch, requested, hs]

theorem resumeAfterJson_threw (w : World) (query : JSString) (body : Json) (e : JSError)
    (h : buildList body = .error e) :
    resumeAfterJson w query (.value body) =
      (finallyBlock (catchBlock { w with searchStatus := showingText query } e), .returned) := by
  simp [resumeAfterJson, renderResults, h, Except.map]

theorem resumeAfterJson_noResults (w : World) (query : JSString) (body : Json)
    (h : buildList body = .ok none) :
    resumeAfterJson w query (.value body) =
      (finallyBlock { w with searchStatus := showingText query,
                             resultsContainer := [.text noResultsText] },
       .returned) := by
  simp [resumeAfterJson, renderResults, h, Except.map]

theorem resumeAfterJson_list (w : World) (query : JSString) (body : Json) (list : Node)
    (h : buildList body = .ok (some list)) :
    resumeAfterJson w query (.value body) =
      (finallyBlock { w with searchStatus := showingText query,
                             resultsContainer := w.resultsContainer ++ [list] },
       .returned) := by
  simp [resumeAfterJson, renderResults, h, Except.map]

theorem textContentList_textChildren (s : JSString) :
    Node.textContentList (textChildren s) = s := by
  cases s with
  | nil => rfl
  | cons c cs => simp [textChildren, Node.textContentList, Node.textContent]

/-- The list item built for an object that carries a search result. -/
theorem buildListItem_resultObject (j : Json) (r : SearchResult) (h : IsResultObject j r) :
    buildListItem j = .ok (.element (utf16 "li") []
      [.element (utf16 "div") [(utf16 "class", utf16 "text-content")]
        [.element (utf16 "a")
          [(utf16 "href", toScalarValues r.link), (utf16 "target", utf16 "_blank")]
          (textChildren r.title),
         .element (utf16 "p") [] (textChildren r.summary)],
       .element (utf16 "img")
        [(utf16 "src", utf16 "assets/images/exam2.png"), (utf16 "class", utf16 "result-image")]
        []]) := by
  obtain ⟨members, rfl, ht, hl, hs⟩ := h
  have h1 : readField (.object members) .link = .ok (.json (.string r.link)) := by
    show (match lookupMember (utf16 "link") members with
      | some v => Except.ok (Value.json v)
      | none => Except.ok Value.undefined) = _
    rw [hl]
  have h2 : readField (.object members) .title = .ok (.json (.string r.title)) := by
    show (match lookupMember (utf16 "title") members with
      | some v => Except.ok (Value.json v)
      | none => Except.ok Value.undefined) = _
    rw [ht]
  have h3 : readField (.object members) .summary = .ok (.json (.string r.summary)) := by
    show (match lookupMember (utf16 "summary") members with
      | some v => Except.ok (Value.json v)
      | none => Except.ok Value.undefined) = _
    rw [hs]
  unfold buildListItem
  rw [h1, h2, h3]
  rfl

theorem isResultObject_toJson (r : SearchResult) : IsResultObject r.toJson r :=
  ⟨_, rfl, rfl, rfl, rfl⟩

theorem isRenderingOf_built (j : Json) (r : SearchResult) (item : Node)
    (ho : IsResultObject j r) (hl : isWellFormed r.link = true)
    (h : buildListItem j = .ok item) : IsRenderingOf item r := by
  rw [buildListItem_resultObject j r ho] at h
  cases h
  refine ⟨rfl, _, _, rfl, rfl, ⟨_, _, rfl, rfl, ?_, ?_, rfl, rfl, ?_⟩, rfl, rfl, rfl⟩
  · rw [toScalarValues_of_isWellFormed r.link hl]; rfl
  · exact textContentList_textChildren r.title
  · exact textContentList_textChildren r.summary

theorem buildItems_resultObjects (objects : List Json) (rs : List SearchResult)
    (ho : List.Forall₂ IsResultObject objects rs)
    (hl : ∀ r ∈ rs, isWellFormed r.link = true) :
    ∃ items, buildItems objects = .ok items ∧ List.Forall₂ IsRenderingOf items rs := by
  induction ho with
  | nil => exact ⟨[], rfl, List.Forall₂.nil⟩
  | @cons j r objects rs hj _ ih =>
    obtain ⟨items, hi, hf⟩ := ih (fun x hx => hl x (List.mem_cons_of_mem _ hx))
    refine ⟨_, ?_, List.Forall₂.cons
      (isRenderingOf_built j r _ hj (hl r (List.mem_cons_self _ _))
        (buildListItem_resultObject j r hj)) hf⟩
    simp [buildItems, buildListItem_resultObject j r hj, hi, Except.map]

theorem buildList_resultObjects (objects : List Json) (rs : List SearchResult)
    (ho : List.Forall₂ IsResultObject objects rs) (hne : objects ≠ [])
    (hl : ∀ r ∈ rs, isWellFormed r.link = true) :
    ∃ items, buildList (.array objects) = .ok (some (.element (utf16 "ul") [] items)) ∧
      List.Forall₂ IsRenderingOf items rs := by
  obtain ⟨items, hi, hf⟩ := buildItems_resultObjects objects rs ho hl
  refine ⟨items, ?_, hf⟩
  have hpos : 0 < objects.length := List.length_pos.2 hne
  simp [buildList, lengthPositive, hpos, hi, Except.map]

theorem handleSubmit_timer (v : World) (value : JSString) :
    SetsOneTimerOrSuspends v (handleSubmit v value) (if isBlank value then 2000 else 3000) := by
  by_cases hq : trim value = []
  · have hb : isBlank value = true := (trim_eq_nil_iff value).1 hq
    rw [handleSubmit_blank v value hq, hb]
    exact Or.inl ⟨rfl, rfl⟩
  · have hb : isBlank value = false := by
      cases h : isBlank value with
      | false => rfl
      | true => exact absurd ((trim_eq_nil_iff value).2 h) hq
    rw [hb]
    cases he : encodeURIComponent (trim value) with
    | error e =>
      rw [handleSubmit_uriError v value e hq he]
      exact Or.inl ⟨rfl, rfl⟩
    | ok encoded =>
      rw [handleSubmit_encoded v value encoded hq he]
      exact Or.inr ⟨⟨_, Or.inl rfl⟩, rfl⟩

theorem resumeAfterFetch_timer (v : World) (query : JSString) (o : FetchOutcome) :
    SetsOneTimerOrSuspends v (resumeAfterFetch v query o) 3000 := by
  cases o with
  | rejected => exact Or.inl ⟨rfl, rfl⟩
  | response status =>
    cases hs : responseOk status with
    | false =>
      simp only [resumeAfterFetch, hs]
      exact Or.inl ⟨rfl, rfl⟩
    | true =>
      simp only [resumeAfterFetch, hs]
      exact Or.inr ⟨⟨_, Or.inr rfl⟩, rfl⟩

theorem resumeAfterJson_timer (v : World) (query : JSString) (o : JsonOutcome) :
    (resumeAfterJson v query o).2 = .returned ∧
    (resumeAfterJson v query o).1.timers =
      v.timers ++ [{ due := v.now + 3000, callback := .clearStatus }] ∧
    (resumeAfterJson v query o).1.now = v.now := by
  cases o with
  | rejected => exact ⟨rfl, rfl, rfl⟩
  | value body =>
    cases hb : buildList body with
    | error e => rw [resumeAfterJson_threw v query body e hb]; exact ⟨rfl, rfl, rfl⟩
    | ok list =>
      cases list with
      | none => rw [resumeAfterJson_noResults v query body hb]; exact ⟨rfl, rfl, rfl⟩
      | some l => rw [resumeAfterJson_list v query body l hb]; exact ⟨rfl, rfl, rfl⟩

theorem runHandler_timer (w : World) (value : JSString)
    (d₁ d₂ : World → World) (fetched : FetchOutcome) (parsed : JsonOutcome)
    (h₁ : ∀ v, (d₁ v).timers = v.timers) (h₂ : ∀ v, (d₂ v).timers = v.timers) :
    (runHandler w value d₁ fetched d₂ parsed).2 = .returned ∧
    (runHandler w value d₁ fetched d₂ parsed).1.timers =
      w.timers ++
        [{ due := (runHandler w value d₁ fetched d₂ parsed).1.now +
                    (if isBlank value then 2000 else 3000),
           callback := .clearStatus }] := by
  by_cases hq : trim value = []
  · have hb : isBlank value = true := (trim_eq_nil_iff value).1 hq
    rw [runHandler_blank w value d₁ d₂ fetched parsed hq, hb]
    exact ⟨rfl, rfl⟩
  · have hb : isBlank value = false := by
      cases h : isBlank value with
      | false => rfl
      | true => exact absurd ((trim_eq_nil_iff value).2 h) hq
    rw [hb]
    cases he : encodeURIComponent (trim value) with
    | error e =>
      rw [runHandler_uriError w value d₁ d₂ fetched parsed e hq he]
      exact ⟨rfl, rfl⟩
    | ok encoded =>
      cases fetched with
      | rejected =>
        rw [runHandler_rejected w value encoded d₁ d₂ parsed hq he]
        refine ⟨rfl, ?_⟩
        simp [finallyBlock, setTimeout, catchBlock, h₁, requested]
      | response status =>
        cases hs : responseOk status with
        | false =>
          rw [runHandler_notOk w value encoded d₁ d₂ status parsed hq he hs]
          refine ⟨rfl, ?_⟩
          simp [finallyBlock, setTimeout, catchBlock, h₁, requested]
        | true =>
          rw [runHandler_ok w value encoded d₁ d₂ status parsed hq he hs]
          refine ⟨(resumeAfterJson_timer _ _ _).1, ?_⟩
          rw [(resumeAfterJson_timer _ _ _).2.1, (resumeAfterJson_timer _ _ _).2.2]
          simp [h₂, h₁, requested]

theorem showingText_ne_errorStatusText (query : JSString) :
    showingText query ≠ errorStatusText := by
  intro h
  have h1 : ([77] : List Nat) = [69] := congrArg (List.take 1) h
  cases h1

theorem buildItems_null_mem (items : List Json) (h : Json.null ∈ items) :
    ∃ e, buildItems items = .error e := by
  induction items with
  | nil => cases h
  | cons r rest ih =>
    cases hr : buildListItem r with
    | error e => exact ⟨e, by simp [buildItems, hr]⟩
    | ok item =>
      have hne : Json.null ≠ r := by
        intro hn
        subst hn
        cases hr
      rcases List.mem_cons.1 h with h | h
      · exact absurd h hne
      · obtain ⟨e, he⟩ := ih h
        exact ⟨e, by simp [buildItems, hr, he, Except.map]⟩

theorem buildList_null_mem (items : List Json) (h : Json.null ∈ items) :
    ThrowsWhileRendering (.array items) := by
  obtain ⟨e, he⟩ := buildItems_null_mem items h
  have hpos : 0 < items.length := List.length_pos_of_mem h
  exact ⟨e, by simp [buildList, lengthPositive, hpos, he, Except.map]⟩

theorem foldl_runCallback_timers (due : List Timer) (v : World) :
    (due.foldl (fun u t => runCallback u t.callback) v).timers = v.timers := by
  induction due generalizing v with
  | nil => rfl
  | cons t rest ih =>
    simp only [List.foldl_cons]
    rw [ih]
    cases t.callback
    rfl

theorem elapse_timers (w : World) (ms : Nat) :
    (elapse w ms).timers = w.timers.filter (fun t => w.now + ms < t.due) := by
  simp only [elapse]
  rw [foldl_runCallback_timers]

theorem park_timers (request : Nat) (r : World × Progress) :
    (park request r).timers = r.1.timers := by
  unfold park
  split <;> rfl

theorem timers_mem_of_stretch (v : World) (r : World × Progress) (delay : Nat)
    (h : SetsOneTimerOrSuspends v r delay) (t : Timer) (ht : t ∈ v.timers) :
    t ∈ r.1.timers := by
  rcases h with ⟨_, h⟩ | ⟨_, h⟩
  · rw [h]; exact List.mem_append_left _ ht
  · rw [h]; exact ht

theorem timer_leaves_only_by_firing (w : World) (ev : Event) (t : Timer)
    (ht : t ∈ w.timers) :
    t ∈ (step w ev).timers ∨ ∃ ms, ev = .elapse ms ∧ t.due ≤ w.now + ms := by
  cases ev with
  | submit value =>
    left
    simp only [step]
    rw [park_timers]
    exact timers_mem_of_stretch w _ _ (handleSubmit_timer w value) t ht
  | fetchSettled request o =>
    left
    simp only [step]
    split
    · exact ht
    · rw [park_timers]
      exact timers_mem_of_stretch (unpark w request) _ _ (resumeAfterFetch_timer _ _ o) t ht
  | jsonSettled request o =>
    left
    simp only [step]
    split
    · exact ht
    · rw [park_timers, (resumeAfterJson_timer _ _ o).2.1]
      exact List.mem_append_left _ ht
  | elapse ms =>
    by_cases hd : t.due ≤ w.now + ms
    · exact Or.inr ⟨ms, rfl, hd⟩
    · left
      simp only [step]
      rw [elapse_timers]
      exact List.mem_filter.2 ⟨ht, by simpa using hd⟩

/-! ## The claims -/

/-- C1 (as amended): for every submission whose trimmed input `q` is non-empty
and has no unpaired surrogate, `encodeURIComponent q` has a value, the handler
calls `fetch` exactly once, before its first suspension and with the address
`http://localhost:5000/search?query=` followed by `encodeURIComponent q`, and
no later stretch of the handler calls `fetch`.  (When `q` has an unpaired
surrogate the handler returns without calling `fetch`: last conjunct.) -/
theorem C1_one_request_with_encoded_query (w : World) (value : JSString)
    (hq : trim value ≠ []) (hwf : isWellFormed (trim value) = true) :
    ∃ encoded, encodeURIComponent (trim value) = .ok encoded ∧
      (handleSubmit w value).1.requests =
        w.requests ++ [utf16 "http://localhost:5000/search?query=" ++ encoded] ∧
      (handleSubmit w value).2 = .awaitFetch (trim value) ∧
      (∀ v query o, (resumeAfterFetch v query o).1.requests = v.requests) ∧
      (∀ v query o, (resumeAfterJson v query o).1.requests = v.requests) ∧
      (∀ v other, trim other ≠ [] → isWellFormed (trim other) = false →
        (handleSubmit v other).1.requests = v.requests ∧
        (handleSubmit v other).2 = .returned) := by
  obtain ⟨encoded, he⟩ := encodeURIComponent_isOk (trim value) hwf
  refine ⟨encoded, he, ?_, ?_, resumeAfterFetch_requests, resumeAfterJson_requests, ?_⟩
  · rw [handleSubmit_encoded w value encoded hq he]; rfl
  · rw [handleSubmit_encoded w value encoded hq he]
  · intro v other ho hn
    rw [handleSubmit_uriError v other .uriError ho (encodeURIComponent_uriError _ hn)]
    exact ⟨rfl, rfl⟩

/-- Witness of C1: the input `  hello world ` is trimmed and sent as
`hello%20world`. -/
theorem C1_witness :
    (handleSubmit initialWorld (utf16 "  hello world ")).1.requests =
      [utf16 "http://localhost:5000/search?query=hello%20world"] ∧
    ∃ encoded, encodeURIComponent (trim (utf16 "  hello world ")) = .ok encoded ∧
      (handleSubmit initialWorld (utf16 "  hello world ")).1.requests =
        [] ++ [utf16 "http://localhost:5000/search?query=" ++ encoded] ∧
      (handleSubmit initialWorld (utf16 "  hello world ")).2 =
        .awaitFetch (trim (utf16 "  hello world ")) ∧
      (∀ v query o, (resumeAfterFetch v query o).1.requests = v.requests) ∧
      (∀ v query o, (resumeAfterJson v query o).1.requests = v.requests) ∧
      (∀ v other, trim other ≠ [] → isWellFormed (trim other) = false →
        (handleSubmit v other).1.requests = v.requests ∧
        (handleSubmit v other).2 = .returned) :=
  ⟨by decide, C1_one_request_with_encoded_query initialWorld (utf16 "  hello world ")
    (by decide) (by decide)⟩

/-- C1 as stated fails: the input consisting of the single unpaired surrogate
U+D800 is non-empty after trimming, `encodeURIComponent` throws on it inside
the `try` block, and the handler returns without having called `fetch`. -/
theorem C1_counterexample :
    trim [55296] = [55296] ∧
    encodeURIComponent (trim [55296]) = .error .uriError ∧
    (handleSubmit initialWorld [55296]).1.requests = [] ∧
    (handleSubmit initialWorld [55296]).2 = .returned ∧
    (handleSubmit initialWorld [55296]).1.searchStatus = errorStatusText := by
  refine ⟨by decide, rfl, rfl, rfl, rfl⟩

/-- C2 (as amended): for every non-empty query (one that can be encoded, so
that its request is made and answered) and every OK response whose body is an
array of `N ≥ 1` objects with string `title`, `link` and `summary` (the keys
in any order), the links being well-formed strings as URLs are, when nothing
else has changed the results container while the handler was suspended, the
container holds after the handler has completed exactly one list with exactly
`N` items, the `i`-th item rendering the `i`-th object: a text block holding a
hyperlink with `href = link`, text `title` and target `_blank`, then a
paragraph with text `summary`, and then an image with class `result-image`
and source `assets/images/exam2.png`. -/
theorem C2_one_list_in_server_order (w : World) (value : JSString)
    (d₁ d₂ : World → World) (status : Nat) (objects : List Json) (rs : List SearchResult)
    (hq : trim value ≠ []) (hwf : isWellFormed (trim value) = true)
    (hs : responseOk status = true) (hne : objects ≠ [])
    (ho : List.Forall₂ IsResultObject objects rs)
    (hl : ∀ r ∈ rs, isWellFormed r.link = true)
    (h₁ : ∀ v, (d₁ v).resultsContainer = v.resultsContainer)
    (h₂ : ∀ v, (d₂ v).resultsContainer = v.resultsContainer) :
    ∃ items,
      (runHandler w value d₁ (.response status) d₂
        (.value (.array objects))).1.resultsContainer =
        [.element (utf16 "ul") [] items] ∧
      items.length = objects.length ∧
      List.Forall₂ IsRenderingOf items rs := by
  obtain ⟨encoded, he⟩ := encodeURIComponent_isOk (trim value) hwf
  obtain ⟨items, hi, hf⟩ := buildList_resultObjects objects rs ho hne hl
  refine ⟨items, ?_, hf.length_eq.trans ho.length_eq.symm, hf⟩
  rw [runHandler_ok w value encoded d₁ d₂ status _ hq he hs, resumeAfterJson_list _ _ _ _ hi]
  simp [finallyBlock, setTimeout, h₂, h₁, requested]

/-- Witness of C2: the query `luna` answered with the two sample results, the
first object with its keys in another order. -/
theorem C2_witness :
    ∃ items,
      (runHandler initialWorld (utf16 "luna") id (.response 200) id
        (.value (.array sampleBody))).1.resultsContainer =
        [.element (utf16 "ul") [] items] ∧
      items.length = sampleBody.length ∧
      List.Forall₂ IsRenderingOf items sampleResults :=
  C2_one_list_in_server_order initialWorld (utf16 "luna") id id 200 sampleBody sampleResults
    (by decide) (by decide) (by decide) (by simp [sampleBody])
    (List.Forall₂.cons ⟨_, rfl, rfl, rfl, rfl⟩
      (List.Forall₂.cons ⟨_, rfl, rfl, rfl, rfl⟩ List.Forall₂.nil))
    (by simp [sampleResults]; decide) (fun _ => rfl) (fun _ => rfl)

/-- C2 as stated fails: when a second submission is made while the first is
still waiting, and both get an OK response with results, then after both
handlers have completed the results container holds two lists, not one.
And for a result whose link is an unpaired surrogate, the hyperlink's `href`
is U+FFFD, not the link. -/
theorem C2_counterexample :
    ((run initialWorld overlappingSearches).suspended = [] ∧
      (run initialWorld overlappingSearches).resultsContainer.length = 2 ∧
      Node.countListsIn (run initialWorld overlappingSearches).resultsContainer = 2 ∧
      (run initialWorld overlappingSearches).searchStatus =
        utf16 "Mostrando resultados para: \"marte\"") ∧
    (brokenLinkResult.link = [55296] ∧
      (runHandler initialWorld (utf16 "luna") id (.response 200) id
        (.value (.array [brokenLinkResult.toJson]))).1.resultsContainer =
        [.element (utf16 "ul") []
          [.element (utf16 "li") []
            [.element (utf16 "div") [(utf16 "class", utf16 "text-content")]
              [.element (utf16 "a")
                [(utf16 "href", [65533]), (utf16 "target", utf16 "_blank")]
                [.text (utf16 "Luna")],
               .element (utf16 "p") [] [.text (utf16 "Satélite")]],
             .element (utf16 "img")
              [(utf16 "src", utf16 "assets/images/exam2.png"),
               (utf16 "class", utf16 "result-image")] []]]]) := by
  refine ⟨⟨rfl, rfl, rfl, ?_⟩, rfl, rfl⟩
  decide

/-- C3: for every non-empty query (one that can be encoded, so that its
request is made and answered) and every OK response whose body is the empty
array, whatever else happened while the handler was suspended, when the
handler has completed the content of the results container is exactly the
text `No se encontraron resultados.`, and it holds no list.  The last
conjunct says the same of the handler's last stretch, from any state and for
any query. -/
theorem C3_empty_array_shows_no_results_text (w : World) (value : JSString)
    (d₁ d₂ : World → World) (status : Nat)
    (hq : trim value ≠ []) (hwf : isWellFormed (trim value) = true)
    (hs : responseOk status = true) :
    (runHandler w value d₁ (.response status) d₂ (.value (.array []))).1.resultsContainer =
      [.text (utf16 "No se encontraron resultados.")] ∧
    Node.countListsIn
      (runHandler w value d₁ (.response status) d₂
        (.value (.array []))).1.resultsContainer = 0 ∧
    (runHandler w value d₁ (.response status) d₂ (.value (.array []))).2 = .returned ∧
    (∀ v query, (resumeAfterJson v query (.value (.array []))).1.resultsContainer =
      [.text (utf16 "No se encontraron resultados.")]) := by
  obtain ⟨encoded, he⟩ := encodeURIComponent_isOk (trim value) hwf
  rw [runHandler_ok w value encoded d₁ d₂ status _ hq he hs]
  exact ⟨rfl, rfl, rfl, fun _ _ => rfl⟩

/-- Witness of C3: the query `luna`, status 200, an empty array. -/
theorem C3_witness :
    (runHandler initialWorld (utf16 "luna") id (.response 200) id
      (.value (.array []))).1.resultsContainer =
      [.text (utf16 "No se encontraron resultados.")] ∧
    Node.countListsIn
      (runHandler initialWorld (utf16 "luna") id (.response 200) id
        (.value (.array []))).1.resultsContainer = 0 ∧
    (runHandler initialWorld (utf16 "luna") id (.response 200) id (.value (.array []))).2 =
      .returned ∧
    (∀ v query, (resumeAfterJson v query (.value (.array []))).1.resultsContainer =
      [.text (utf16 "No se encontraron resultados.")]) :=
  C3_empty_array_shows_no_results_text initialWorld (utf16 "luna") id id 200
    (by decide) (by decide) (by decide)

/-- C4: for every non-empty query and every failure of the request lifecycle
(`fetch` rejects, the response is not OK, `response.json()` rejects, or an
exception is thrown while the list is built), whatever else happened while the
handler was suspended, the handler returns normally, and when it has completed
the status text is `Error al realizar la búsqueda.` and the content of the
results container is exactly the retry-later text, with no list in it; after a
response that is not OK the handler ends without calling `response.json()`. -/
theorem C4_failures_end_in_error_texts (w : World) (value : JSString)
    (d₁ d₂ : World → World) (fetched : FetchOutcome) (parsed : JsonOutcome)
    (hq : trim value ≠ []) (hf : LifecycleFails fetched parsed) :
    (runHandler w value d₁ fetched d₂ parsed).2 = .returned ∧
    (runHandler w value d₁ fetched d₂ parsed).1.searchStatus =
      utf16 "Error al realizar la búsqueda." ∧
    (runHandler w value d₁ fetched d₂ parsed).1.resultsContainer =
      [.text (utf16
        "Ocurrió un error al obtener los resultados. Por favor, intente de nuevo más tarde.")] ∧
    Node.countListsIn (runHandler w value d₁ fetched d₂ parsed).1.resultsContainer = 0 ∧
    (∀ v query status, responseOk status = false →
      (resumeAfterFetch v query (.response status)).2 = .returned ∧
      (resumeAfterFetch v query (.response status)).1.bodyReads = v.bodyReads) := by
  have hbody : ∀ v query status, responseOk status = false →
      (resumeAfterFetch v query (.response status)).2 = .returned ∧
      (resumeAfterFetch v query (.response status)).1.bodyReads = v.bodyReads := by
    intro v query status hs
    simp [resumeAfterFetch, hs, finallyBlock, setTimeout, catchBlock]
  cases he : encodeURIComponent (trim value) with
  | error e =>
    rw [runHandler_uriError w value d₁ d₂ fetched parsed e hq he]
    exact ⟨rfl, rfl, rfl, rfl, hbody⟩
  | ok encoded =>
    rcases hf with hf | ⟨status, hf, hs⟩ | ⟨status, hf, hs, hp⟩
    · subst hf
      rw [runHandler_rejected w value encoded d₁ d₂ parsed hq he]
      exact ⟨rfl, rfl, rfl, rfl, hbody⟩
    · subst hf
      rw [runHandler_notOk w value encoded d₁ d₂ status parsed hq he hs]
      exact ⟨rfl, rfl, rfl, rfl, hbody⟩
    · subst hf
      rw [runHandler_ok w value encoded d₁ d₂ status parsed hq he hs]
      rcases hp with hp | ⟨body, hp, e, hb⟩
      · subst hp
        exact ⟨rfl, rfl, rfl, rfl, hbody⟩
      · subst hp
        rw [resumeAfterJson_threw _ _ body e hb]
        exact ⟨rfl, rfl, rfl, rfl, hbody⟩

/-- Witness of C4: the query `luna` answered with status 500. -/
theorem C4_witness :
    (runHandler initialWorld (utf16 "luna") id (.response 500) id .rejected).2 = .returned ∧
    (runHandler initialWorld (utf16 "luna") id (.response 500) id .rejected).1.searchStatus =
      utf16 "Error al realizar la búsqueda." ∧
    (runHandler initialWorld (utf16 "luna") id (.response 500) id .rejected).1.resultsContainer =
      [.text (utf16
        "Ocurrió un error al obtener los resultados. Por favor, intente de nuevo más tarde.")] ∧
    Node.countListsIn
      (runHandler initialWorld (utf16 "luna") id (.response 500) id
        .rejected).1.resultsContainer = 0 ∧
    (∀ v query status, responseOk status = false →
      (resumeAfterFetch v query (.response status)).2 = .returned ∧
      (resumeAfterFetch v query (.response status)).1.bodyReads = v.bodyReads) :=
  C4_failures_end_in_error_texts initialWorld (utf16 "luna") id id (.response 500) .rejected
    (by decide) (Or.inr (Or.inl ⟨500, rfl, by decide⟩))

/-- C5: for every submission whose input value is empty or consists of white
space only, the handler calls `fetch` not at all, sets the status text to
`Por favor, ingrese una consulta.`, and returns without suspending. -/
theorem C5_blank_query_prompts_without_request (w : World) (value : JSString)
    (d₁ d₂ : World → World) (fetched : FetchOutcome) (parsed : JsonOutcome)
    (hb : isBlank value = true) :
    (handleSubmit w value).2 = .returned ∧
    (handleSubmit w value).1.requests = w.requests ∧
    (handleSubmit w value).1.searchStatus = utf16 "Por favor, ingrese una consulta." ∧
    runHandler w value d₁ fetched d₂ parsed = handleSubmit w value := by
  have h := trim_eq_nil_of_isBlank value hb
  rw [runHandler_blank w value d₁ d₂ fetched parsed h, handleSubmit_blank w value h]
  exact ⟨rfl, rfl, rfl, rfl⟩

/-- Witness of C5: an input of a space, a tab and a line feed. -/
theorem C5_witness :
    (handleSubmit initialWorld [32, 9, 10]).2 = .returned ∧
    (handleSubmit initialWorld [32, 9, 10]).1.requests = initialWorld.requests ∧
    (handleSubmit initialWorld [32, 9, 10]).1.searchStatus =
      utf16 "Por favor, ingrese una consulta." ∧
    runHandler initialWorld [32, 9, 10] id .rejected id .rejected =
      handleSubmit initialWorld [32, 9, 10] :=
  C5_blank_query_prompts_without_request initialWorld [32, 9, 10] id id .rejected .rejected
    (by decide)

/-- C6: every submission sets exactly one timer, whose callback sets the status
text to the empty string.  For an empty or white-space-only input the delay is
2000 ms and the timer is set in the world in which the prompt has been written;
otherwise the delay is 3000 ms, counted from the moment the handler ends, on
every path.  Stated for a run during whose suspensions nothing else touches
the timers, and stretch by stretch without that restriction: a stretch that
ends the handler sets one timer, a stretch that suspends sets none. -/
theorem C6_one_status_clear_timer (w : World) (value : JSString)
    (d₁ d₂ : World → World) (fetched : FetchOutcome) (parsed : JsonOutcome)
    (h₁ : ∀ v, (d₁ v).timers = v.timers) (h₂ : ∀ v, (d₂ v).timers = v.timers) :
    (runHandler w value d₁ fetched d₂ parsed).2 = .returned ∧
    (runHandler w value d₁ fetched d₂ parsed).1.timers =
      w.timers ++
        [{ due := (runHandler w value d₁ fetched d₂ parsed).1.now +
                    (if isBlank value then 2000 else 3000),
           callback := .clearStatus }] ∧
    (isBlank value = true →
      (runHandler w value d₁ fetched d₂ parsed).1 =
        setTimeout { w with searchStatus := promptText } .clearStatus 2000) ∧
    (∀ v, (runCallback v .clearStatus).searchStatus = []) ∧
    (∀ v val, SetsOneTimerOrSuspends v (handleSubmit v val)
      (if isBlank val then 2000 else 3000)) ∧
    (∀ v query o, SetsOneTimerOrSuspends v (resumeAfterFetch v query o) 3000) ∧
    (∀ v query o, SetsOneTimerOrSuspends v (resumeAfterJson v query o) 3000) := by
  refine ⟨?_, ?_, ?_, fun _ => rfl, handleSubmit_timer, resumeAfterFetch_timer,
    fun v query o => Or.inl ⟨(resumeAfterJson_timer v query o).1,
      (resumeAfterJson_timer v query o).2.1⟩⟩
  · exact (runHandler_timer w value d₁ d₂ fetched parsed h₁ h₂).1
  · exact (runHandler_timer w value d₁ d₂ fetched parsed h₁ h₂).2
  · intro hb
    rw [runHandler_blank w value d₁ d₂ fetched parsed (trim_eq_nil_of_isBlank value hb)]

/-- Witness of C6: the query `luna` whose request fails, nothing else
happening meanwhile. -/
theorem C6_witness :
    (runHandler initialWorld (utf16 "luna") id .rejected id .rejected).1.timers =
      [{ due := 3000, callback := .clearStatus }] ∧
    (runHandler initialWorld [] id .rejected id .rejected).1.timers =
      [{ due := 2000, callback := .clearStatus }] ∧
    (runHandler initialWorld (utf16 "luna") id .rejected id .rejected).2 = .returned :=
  ⟨by decide, by decide,
    (C6_one_status_clear_timer initialWorld (utf16 "luna") id id .rejected .rejected
      (fun _ => rfl) (fun _ => rfl)).1⟩

/-- C7: for every non-empty trimmed query `q` (one that can be encoded, so
that its request is made and answered) and every OK response whose body is an
array, empty or not, that renders without an exception, whatever else happened
while the handler was suspended, the status text when the handler has
completed is `Mostrando resultados para: "q"`: the fixed prefix, then `q`
itself, unaltered, between double quotes.  The last conjunct says the same of
the handler's last stretch, from any state and for any query. -/
theorem C7_status_shows_literal_query (w : World) (value : JSString)
    (d₁ d₂ : World → World) (status : Nat) (items : List Json)
    (hq : trim value ≠ []) (hwf : isWellFormed (trim value) = true)
    (hs : responseOk status = true) (hr : RendersWithoutError (.array items)) :
    (runHandler w value d₁ (.response status) d₂ (.value (.array items))).2 = .returned ∧
    (runHandler w value d₁ (.response status) d₂ (.value (.array items))).1.searchStatus =
      utf16 "Mostrando resultados para: \"" ++ trim value ++ utf16 "\"" ∧
    (∀ v query, (resumeAfterJson v query (.value (.array items))).1.searchStatus =
      utf16 "Mostrando resultados para: \"" ++ query ++ utf16 "\"") := by
  obtain ⟨encoded, he⟩ := encodeURIComponent_isOk (trim value) hwf
  obtain ⟨list, hl⟩ := hr
  rw [runHandler_ok w value encoded d₁ d₂ status _ hq he hs]
  cases list with
  | none =>
    refine ⟨?_, ?_, fun v query => ?_⟩ <;> rw [resumeAfterJson_noResults _ _ _ hl] <;> rfl
  | some l =>
    refine ⟨?_, ?_, fun v query => ?_⟩ <;> rw [resumeAfterJson_list _ _ _ l hl] <;> rfl

/-- Witness of C7: the input ` luna ` answered with two results. -/
theorem C7_witness :
    (runHandler initialWorld (utf16 " luna ") id (.response 200) id
        (.value (.array (sampleResults.map SearchResult.toJson)))).1.searchStatus =
      utf16 "Mostrando resultados para: \"luna\"" ∧
    (runHandler initialWorld (utf16 " luna ") id (.response 200) id
      (.value (.array (sampleResults.map SearchResult.toJson)))).2 = .returned ∧
    (runHandler initialWorld (utf16 " luna ") id (.response 200) id
      (.value (.array (sampleResults.map SearchResult.toJson)))).1.searchStatus =
      utf16 "Mostrando resultados para: \"" ++ trim (utf16 " luna ") ++ utf16 "\"" ∧
    (∀ v query,
      (resumeAfterJson v query
        (.value (.array (sampleResults.map SearchResult.toJson)))).1.searchStatus =
      utf16 "Mostrando resultados para: \"" ++ query ++ utf16 "\"") :=
  ⟨by decide, C7_status_shows_literal_query initialWorld (utf16 " luna ") id id 200
    (sampleResults.map SearchResult.toJson) (by decide) (by decide) (by decide) ⟨_, rfl⟩⟩

/-- C8 (as amended): for every non-empty query that can be encoded and every OK
response whose body is valid JSON, of whatever shape, the handler checks no
shape.  It ends with the generic error status and the retry-later text when,
and only when, an exception is thrown while the body is rendered, as for
`null`, a non-empty string, an array containing `null` or an object whose
`length` is a Number above zero such as `0.5`.  When
`results.length > 0` is false, as for a number, a boolean, the empty string or
an object without `length`, it ends with the status `Mostrando resultados para: "q"` and the text
`No se encontraron resultados.`.  Otherwise it ends with that status and the
list built from the elements appended to the results container. -/
theorem C8_unexpected_shapes (w : World) (value : JSString)
    (d₁ d₂ : World → World) (status : Nat) (body : Json)
    (hq : trim value ≠ []) (hwf : isWellFormed (trim value) = true)
    (hs : responseOk status = true) :
    (ThrowsWhileRendering body →
      (runHandler w value d₁ (.response status) d₂ (.value body)).1.searchStatus =
        errorStatusText ∧
      (runHandler w value d₁ (.response status) d₂ (.value body)).1.resultsContainer =
        [.text retryText]) ∧
    ((runHandler w value d₁ (.response status) d₂ (.value body)).1.searchStatus =
        errorStatusText → ThrowsWhileRendering body) ∧
    (buildList body = .ok none →
      (runHandler w value d₁ (.response status) d₂ (.value body)).1.searchStatus =
        showingText (trim value) ∧
      (runHandler w value d₁ (.response status) d₂ (.value body)).1.resultsContainer =
        [.text noResultsText]) ∧
    (∀ list, buildList body = .ok (some list) →
      (runHandler w value d₁ (.response status) d₂ (.value body)).1.searchStatus =
        showingText (trim value) ∧
      ∃ before,
        (runHandler w value d₁ (.response status) d₂ (.value body)).1.resultsContainer =
          before ++ [list]) ∧
    (buildList .null = .error .typeError ∧
      (∀ s, s ≠ [] → buildList (.string s) = .error .typeError) ∧
      (∀ items, Json.null ∈ items → ThrowsWhileRendering (.array items)) ∧
      (∀ members n, lookupMember (utf16 "length") members = some (.number n) →
        stringToNumberPositive n.text = true →
        buildList (.object members) = .error .typeError)) ∧
    ((∀ n, buildList (.number n) = .ok none) ∧
      (∀ b, buildList (.bool b) = .ok none) ∧
      buildList (.string []) = .ok none ∧
      (∀ members, lookupMember (utf16 "length") members = none →
        buildList (.object members) = .ok none)) := by
  obtain ⟨encoded, he⟩ := encodeURIComponent_isOk (trim value) hwf
  rw [runHandler_ok w value encoded d₁ d₂ status _ hq he hs]
  refine ⟨?_, ?_, ?_, ?_, ⟨rfl, ?_, buildList_null_mem, ?_⟩,
    ⟨fun _ => rfl, fun _ => rfl, rfl, ?_⟩⟩
  · rintro ⟨e, hb⟩
    rw [resumeAfterJson_threw _ _ body e hb]
    exact ⟨rfl, rfl⟩
  · intro hst
    cases hb : buildList body with
    | error e => exact ⟨e, hb⟩
    | ok list =>
      cases list with
      | none =>
        rw [resumeAfterJson_noResults _ _ body hb] at hst
        exact absurd hst (showingText_ne_errorStatusText _)
      | some l =>
        rw [resumeAfterJson_list _ _ body l hb] at hst
        exact absurd hst (showingText_ne_errorStatusText _)
  · intro hb
    rw [resumeAfterJson_noResults _ _ body hb]
    exact ⟨rfl, rfl⟩
  · intro list hb
    rw [resumeAfterJson_list _ _ body list hb]
    exact ⟨rfl, _, rfl⟩
  · intro s hs'
    have hpos : 0 < s.length := List.length_pos.2 hs'
    simp [buildList, lengthPositive, hpos]
  · intro members n hm hn
    simp [buildList, lengthPositive, hm, Json.greaterThanZero, hn]
  · intro members hm
    simp [buildList, lengthPositive, hm]

/-- Witness of C8: the query `luna` and a body `[null]`. -/
theorem C8_witness :
    (runHandler initialWorld (utf16 "luna") id (.response 200) id
      (.value (.array [.null]))).1.searchStatus = errorStatusText ∧
    (runHandler initialWorld (utf16 "luna") id (.response 200) id
      (.value (.array [.null]))).1.resultsContainer = [.text retryText] :=
  (C8_unexpected_shapes initialWorld (utf16 "luna") id id 200 (.array [.null])
    (by decide) (by decide) (by decide)).1 ⟨.typeError, rfl⟩

/-- C8 as stated fails: with an OK response whose body is the object `{}`, or
the number `7`, the handler ends with the status `Mostrando resultados para:
"luna"` and the text `No se encontraron resultados.`; with an array holding an
object without `title` it ends with that status and a rendered list whose
link has no text.  None of them is treated as an error. -/
theorem C8_counterexample :
    ((runHandler initialWorld (utf16 "luna") id (.response 200) id
        (.value (.object []))).1.searchStatus = utf16 "Mostrando resultados para: \"luna\"" ∧
      (runHandler initialWorld (utf16 "luna") id (.response 200) id
        (.value (.object []))).1.resultsContainer =
        [.text (utf16 "No se encontraron resultados.")]) ∧
    ((runHandler initialWorld (utf16 "luna") id (.response 200) id
        (.value (.number ⟨utf16 "7"⟩))).1.searchStatus =
        utf16 "Mostrando resultados para: \"luna\"" ∧
      (runHandler initialWorld (utf16 "luna") id (.response 200) id
        (.value (.number ⟨utf16 "7"⟩))).1.resultsContainer =
        [.text (utf16 "No se encontraron resultados.")]) ∧
    ((runHandler initialWorld (utf16 "luna") id (.response 200) id
        (.value (.array [untitledResult]))).1.searchStatus =
        utf16 "Mostrando resultados para: \"luna\"" ∧
      (runHandler initialWorld (utf16 "luna") id (.response 200) id
        (.value (.array [untitledResult]))).1.resultsContainer =
        [.element (utf16 "ul") []
          [.element (utf16 "li") []
            [.element (utf16 "div") [(utf16 "class", utf16 "text-content")]
              [.element (utf16 "a")
                [(utf16 "href", utf16 "/marte"), (utf16 "target", utf16 "_blank")] [],
               .element (utf16 "p") [] [.text (utf16 "Planeta")]],
             .element (utf16 "img")
              [(utf16 "src", utf16 "assets/images/exam2.png"),
               (utf16 "class", utf16 "result-image")] []]]]) ∧
    utf16 "Mostrando resultados para: \"luna\"" ≠ errorStatusText := by
  refine ⟨⟨by decide, rfl⟩, ⟨by decide, rfl⟩, ⟨by decide, rfl⟩, by decide⟩

/-- C9 (as amended): at the start of every submission with a non-empty query
the results container is cleared, whatever it held: the first stretch of the
handler ends exactly as it would have with an empty container, and when the
request is issued the container is empty and the status is
`Buscando resultados...`.  A submission of an empty or white-space-only input
leaves the results container unchanged. -/
theorem C9_nonempty_query_clears_results (w : World) (value : JSString)
    (hq : trim value ≠ []) :
    handleSubmit w value = handleSubmit { w with resultsContainer := [] } value ∧
    (∀ query, (handleSubmit w value).2 = .awaitFetch query →
      (handleSubmit w value).1.resultsContainer = [] ∧
      (handleSubmit w value).1.searchStatus = utf16 "Buscando resultados..." ∧
      (handleSubmit w value).1.requests.length = w.requests.length + 1) ∧
    (isWellFormed (trim value) = true → (handleSubmit w value).2 = .awaitFetch (trim value)) ∧
    (∀ blank, isBlank blank = true →
      (handleSubmit w blank).1.resultsContainer = w.resultsContainer) := by
  refine ⟨?_, ?_, ?_, ?_⟩
  · simp [handleSubmit, hq]
  · intro query hp
    cases he : encodeURIComponent (trim value) with
    | error e =>
      rw [handleSubmit_uriError w value e hq he] at hp
      cases hp
    | ok encoded =>
      rw [handleSubmit_encoded w value encoded hq he]
      simp
      rfl
  · intro hwf
    obtain ⟨encoded, he⟩ := encodeURIComponent_isOk (trim value) hwf
    rw [handleSubmit_encoded w value encoded hq he]
  · intro blank hb
    rw [handleSubmit_blank w blank (trim_eq_nil_of_isBlank blank hb)]
    rfl

/-- Witness of C9: the query `luna` submitted while a list is shown. -/
theorem C9_witness :
    (handleSubmit { initialWorld with resultsContainer := [.element (utf16 "ul") [] []] }
      (utf16 "luna")).1.resultsContainer = [] :=
  ((C9_nonempty_query_clears_results
      { initialWorld with resultsContainer := [.element (utf16 "ul") [] []] } (utf16 "luna")
      (by decide)).2.1 (utf16 "luna") rfl).1

/-- C9 as stated fails: after a search has rendered its results, a submission
of a white-space-only input leaves the results container as it was, the list
of the earlier search still in it, while the status shows the prompt. -/
theorem C9_counterexample :
    (run initialWorld blankAfterSearch).searchStatus = promptText ∧
    Node.countListsIn (run initialWorld (blankAfterSearch.take 3)).resultsContainer = 1 ∧
    Node.countListsIn (run initialWorld blankAfterSearch).resultsContainer = 1 ∧
    (run initialWorld blankAfterSearch).resultsContainer.length = 1 ∧
    (run initialWorld blankAfterSearch).suspended = [] := by
  refine ⟨by decide, rfl, rfl, rfl, rfl⟩

/-- C10: timers are never cancelled (a timer that has been set stays until the
time it is due has come, whatever else happens) and a timer holds nothing but
its due time and the one callback.  In the scenario of an empty submission at
time 0 followed at time 1000 by a submission of `luna` whose request is still
pending at time 2000, the timer of the first submission fires at time 2000 and
sets the status text of the second, `Buscando resultados...`, to the empty
string while that search is still waiting for its response. -/
theorem C10_stale_timer_clears_later_status :
    (∀ (w : World) (ev : Event) (t : Timer), t ∈ w.timers →
      t ∈ (step w ev).timers ∨ ∃ ms, ev = .elapse ms ∧ t.due ≤ w.now + ms) ∧
    (∀ t : Timer, t = { due := t.due, callback := .clearStatus }) ∧
    (run initialWorld (staleTimerScenario.take 3)).now = 1000 ∧
    (run initialWorld (staleTimerScenario.take 3)).searchStatus = utf16 "Buscando resultados..." ∧
    (run initialWorld (staleTimerScenario.take 3)).timers =
      [{ due := 2000, callback := .clearStatus }] ∧
    (run initialWorld staleTimerScenario).now = 2000 ∧
    (run initialWorld staleTimerScenario).searchStatus = [] ∧
    (run initialWorld staleTimerScenario).suspended =
      [{ request := 0, query := utf16 "luna", stage := .awaitingFetch }] ∧
    (run initialWorld staleTimerScenario).timers = [] := by
  refine ⟨timer_leaves_only_by_firing, ?_, rfl, by decide, by decide, rfl, rfl, by decide,
    by decide⟩
  intro t
  cases t with
  | mk due callback => cases callback; rfl

end SearchPage
